import Mathlib

/-!
Verification of the game-session core of the Among-Us-IRL repository.

The repository ships the implementation of its game-flow module as
`js/game-logic.js`; the sources available here contain that module's test
suites (`src/tests/game-logic.test.js` and the unnamed test files), its
initialization glue (`src/js/init.js`) and the persistence schema.  The
game-logic module itself is therefore modelled below from the repository's
specification (spec.md §3, §4.4, §4.5, §4.7), with the concrete messages and
edge-case behaviour pinned by the repository's own test suites.

State is embedded as explicit values: the JavaScript `gameState` singleton
becomes the `GameState` structure, and every operation is a pure function
from state (plus the device-local inputs it reads) to state together with
its observable outcome (alert message, thrown error, returned value).
-/

namespace AmongUsIRL

/-- Player role: `null` before the game starts, then crewmate or imposter. -/
inductive Role
  | unassigned
  | crewmate
  | imposter
  deriving Repr, DecidableEq

/-- Session stage as stored in `gameState.stage`. -/
inductive Stage
  | setup
  | waiting
  | playing
  | meeting
  | ended
  deriving Repr, DecidableEq

/-- Winning faction, as stored in `gameState.winner`. -/
inductive Winner
  | crewmates
  | imposters
  deriving Repr, DecidableEq

/-- One roster entry of `gameState.players`.  The `alive` field is
`Option Bool` because the JavaScript field may be `undefined`/`null`
(modelled as `none`) and the win check normalizes that to `true`. -/
structure Player where
  name : String
  ready : Bool
  role : Role
  tasks : List String
  alive : Option Bool
  tasksCompleted : Nat
  deriving Repr, DecidableEq

/-- The slice of `gameState.settings` the modelled operations read. -/
structure Settings where
  minPlayers : Nat
  maxPlayers : Nat
  tasksPerPlayer : Nat
  imposterCount : Nat
  deriving Repr, DecidableEq

/-- The session state (`gameState`).  `winReason` models the human-readable
reason string passed to `endGame` alongside the winner. -/
structure GameState where
  stage : Stage
  roomCode : String
  hostName : Option String
  players : List Player
  gameEnded : Bool
  winner : Option Winner
  winReason : Option String
  meetingsUsed : Nat
  settings : Settings
  deriving Repr, DecidableEq

/-- The value returned by a win check: winning faction plus reason string. -/
structure WinResult where
  winner : Winner
  reason : String
  deriving Repr, DecidableEq

/-- A player counts as alive when `alive` is `true` or unset (spec §4.4:
"treating any player whose `alive` field is unset/null as alive"). -/
def isAlive (p : Player) : Bool := p.alive.getD true

/-- The normalization side effect of the win check: an unset `alive`
field is overwritten with `true`. -/
def normalizeAlive (p : Player) : Player := { p with alive := some (p.alive.getD true) }

/-- Number of alive imposters (`aliveImp` in the spec). -/
def aliveImposters (ps : List Player) : Nat :=
  ps.countP (fun p => decide (p.role = Role.imposter) && isAlive p)

/-- Number of alive crewmates (`aliveCrew` in the spec). -/
def aliveCrewmates (ps : List Player) : Nat :=
  ps.countP (fun p => decide (p.role = Role.crewmate) && isAlive p)

/-- Number of players ever assigned the imposter role, alive or not. -/
def totalImposters (ps : List Player) : Nat :=
  ps.countP (fun p => decide (p.role = Role.imposter))

/-- Modelled from the spec: `checkWinConditions` of the missing
`js/game-logic.js` (spec §4.4 imposter-elimination check).  Unset `alive`
fields are first normalized to `true`; if no player was ever assigned the
imposter role the check throws the fatal consistency error (message pinned
by the test suite); otherwise the decision table of §4.4 applies.  The
returned list is the roster after the in-place normalization. -/
def checkWinConditions (players : List Player) :
    Except String (List Player × Option WinResult) :=
  let ps := players.map normalizeAlive
  if totalImposters ps = 0 then
    Except.error "Game malfunction: No imposters were assigned at game start"
  else if aliveImposters ps = 0 then
    Except.ok (ps, some { winner := Winner.crewmates, reason := "All imposters eliminated" })
  else if aliveCrewmates ps ≤ aliveImposters ps then
    Except.ok (ps, some { winner := Winner.imposters,
                          reason := "Imposters equal or outnumber crewmates" })
  else
    Except.ok (ps, none)

theorem isAlive_normalizeAlive (p : Player) : isAlive (normalizeAlive p) = isAlive p := rfl

theorem role_normalizeAlive (p : Player) : (normalizeAlive p).role = p.role := rfl

theorem countP_map_normalizeAlive (q : Player → Bool)
    (hq : ∀ p, q (normalizeAlive p) = q p) (ps : List Player) :
    (ps.map normalizeAlive).countP q = ps.countP q := by
  induction ps with
  | nil => rfl
  | cons p ps ih => simp [List.countP_cons, hq, ih]

theorem aliveImposters_map_normalizeAlive (ps : List Player) :
    aliveImposters (ps.map normalizeAlive) = aliveImposters ps :=
  countP_map_normalizeAlive (fun p => decide (p.role = Role.imposter) && isAlive p)
    (fun _ => rfl) ps

theorem aliveCrewmates_map_normalizeAlive (ps : List Player) :
    aliveCrewmates (ps.map normalizeAlive) = aliveCrewmates ps :=
  countP_map_normalizeAlive (fun p => decide (p.role = Role.crewmate) && isAlive p)
    (fun _ => rfl) ps

theorem totalImposters_map_normalizeAlive (ps : List Player) :
    totalImposters (ps.map normalizeAlive) = totalImposters ps :=
  countP_map_normalizeAlive (fun p => decide (p.role = Role.imposter)) (fun _ => rfl) ps

theorem totalImposters_pos (ps : List Player)
    (h : ∃ p ∈ ps, p.role = Role.imposter) : 0 < totalImposters ps := by
  rcases h with ⟨p, hp, hr⟩
  exact List.countP_pos_iff.mpr ⟨p, hp, by simp [hr]⟩

/-- C1: for every roster containing at least one imposter-role player,
`checkWinConditions` follows the spec's decision table on the counts of
alive imposters and alive crewmates, where a player with an unset `alive`
field counts as alive and is normalized to `alive = true` in the returned
roster. -/
theorem checkWinConditions_decision_table (players : List Player)
    (h : ∃ p ∈ players, p.role = Role.imposter) :
    (∀ p ∈ players, p.alive = none → (normalizeAlive p).alive = some true) ∧
    (aliveImposters players = 0 →
      checkWinConditions players =
        Except.ok (players.map normalizeAlive,
          some { winner := Winner.crewmates, reason := "All imposters eliminated" })) ∧
    (0 < aliveImposters players → aliveCrewmates players ≤ aliveImposters players →
      checkWinConditions players =
        Except.ok (players.map normalizeAlive,
          some { winner := Winner.imposters,
                 reason := "Imposters equal or outnumber crewmates" })) ∧
    (0 < aliveImposters players → aliveImposters players < aliveCrewmates players →
      checkWinConditions players = Except.ok (players.map normalizeAlive, none)) := by
  have htot : totalImposters (players.map normalizeAlive) = totalImposters players :=
    totalImposters_map_normalizeAlive players
  have himp : aliveImposters (players.map normalizeAlive) = aliveImposters players :=
    aliveImposters_map_normalizeAlive players
  have hcrew : aliveCrewmates (players.map normalizeAlive) = aliveCrewmates players :=
    aliveCrewmates_map_normalizeAlive players
  have hpos : 0 < totalImposters players := totalImposters_pos players h
  refine ⟨?_, ?_, ?_, ?_⟩
  · intro p _ hnone
    simp [normalizeAlive, hnone]
  · intro h0
    simp only [checkWinConditions]
    rw [htot, himp, hcrew]
    rw [if_neg (by omega), if_pos h0]
  · intro h1 h2
    simp only [checkWinConditions]
    rw [htot, himp, hcrew]
    rw [if_neg (by omega), if_neg (by omega), if_pos h2]
  · intro h1 h2
    simp only [checkWinConditions]
    rw [htot, himp, hcrew]
    rw [if_neg (by omega), if_neg (by omega), if_neg (by omega)]

/-- A sample roster with one eliminated imposter and one crewmate whose
`alive` field is unset. -/
def rosterC1 : List Player :=
  [{ name := "Player1", ready := true, role := Role.crewmate, tasks := [],
     alive := none, tasksCompleted := 0 },
   { name := "Imposter1", ready := true, role := Role.imposter, tasks := [],
     alive := some false, tasksCompleted := 0 }]

theorem checkWinConditions_decision_table_witness :
    (∃ p ∈ rosterC1, p.role = Role.imposter) ∧
    ((∀ p ∈ rosterC1, p.alive = none → (normalizeAlive p).alive = some true) ∧
     (aliveImposters rosterC1 = 0 →
       checkWinConditions rosterC1 =
         Except.ok (rosterC1.map normalizeAlive,
           some { winner := Winner.crewmates, reason := "All imposters eliminated" })) ∧
     (0 < aliveImposters rosterC1 → aliveCrewmates rosterC1 ≤ aliveImposters rosterC1 →
       checkWinConditions rosterC1 =
         Except.ok (rosterC1.map normalizeAlive,
           some { winner := Winner.imposters,
                  reason := "Imposters equal or outnumber crewmates" })) ∧
     (0 < aliveImposters rosterC1 → aliveImposters rosterC1 < aliveCrewmates rosterC1 →
       checkWinConditions rosterC1 = Except.ok (rosterC1.map normalizeAlive, none))) :=
  ⟨⟨rosterC1[1], by decide, rfl⟩,
   checkWinConditions_decision_table rosterC1 ⟨rosterC1[1], by decide, rfl⟩⟩

/-- C2: invoking `checkWinConditions` on a roster in which no player was
ever assigned role imposter throws the fatal game-malfunction error rather
than returning a winner or `null`. -/
theorem checkWinConditions_no_imposters (players : List Player)
    (h : ∀ p ∈ players, p.role ≠ Role.imposter) :
    checkWinConditions players =
      Except.error "Game malfunction: No imposters were assigned at game start" := by
  have h0 : totalImposters (players.map normalizeAlive) = 0 := by
    rw [totalImposters_map_normalizeAlive]
    apply Nat.eq_zero_of_not_pos
    intro hpos
    rcases List.countP_pos_iff.mp hpos with ⟨p, hp, hr⟩
    exact h p hp (by simpa using hr)
  simp only [checkWinConditions]
  rw [if_pos h0]

/-- A roster of two crewmates and no imposter. -/
def rosterC2 : List Player :=
  [{ name := "Player1", ready := true, role := Role.crewmate, tasks := [],
     alive := some true, tasksCompleted := 0 },
   { name := "Player2", ready := true, role := Role.crewmate, tasks := [],
     alive := some true, tasksCompleted := 0 }]

theorem checkWinConditions_no_imposters_witness :
    checkWinConditions rosterC2 =
      Except.error "Game malfunction: No imposters were assigned at game start" :=
  checkWinConditions_no_imposters rosterC2 (by decide)

/-- Sum of `tasks.length` over every crewmate, alive or eliminated
(spec §4.3 crew-wide totals). -/
def crewTotalTasks (ps : List Player) : Nat :=
  ((ps.filter (fun p => decide (p.role = Role.crewmate))).map (fun p => p.tasks.length)).sum

/-- Sum of `tasksCompleted` over every crewmate, alive or eliminated. -/
def crewCompletedTasks (ps : List Player) : Nat :=
  ((ps.filter (fun p => decide (p.role = Role.crewmate))).map (fun p => p.tasksCompleted)).sum

/-- Modelled from the spec: `endGame` of the missing `js/game-logic.js`
(spec §4.5 Playing/Meeting → Ended): sets `gameEnded`, `winner`, the
displayed reason, and `stage = Ended`. -/
def endGame (gs : GameState) (w : Winner) (reason : String) : GameState :=
  { gs with gameEnded := true, winner := some w, winReason := some reason,
            stage := Stage.ended }

/-- Modelled from the spec: `checkCrewmateVictory` of the missing
`js/game-logic.js` (spec §4.4 task-completion check): sums `tasksCompleted`
and `tasks.length` over all crewmates regardless of `alive` and ends the
game for the crewmates when the crew has completed all of its tasks.
A check on an already-ended session is a no-op (§4.4), and a crew with no
tasks at all does not win: the repository's test "should handle crewmates
with no tasks" requires that `endGame` is not invoked when the crew-wide
task total is zero, so victory requires a positive total. -/
def checkCrewmateVictory (gs : GameState) : GameState :=
  if gs.gameEnded then gs
  else
    let total := crewTotalTasks gs.players
    let done := crewCompletedTasks gs.players
    if 0 < total ∧ done = total then endGame gs Winner.crewmates "All tasks completed"
    else gs

/-- C3: on a roster whose crewmates have a positive total number of
assigned tasks, `checkCrewmateVictory` ends the game with the crewmates
winning exactly when the sum of `tasksCompleted` over all crewmates (alive
or eliminated) equals the sum of `tasks.length` over all crewmates. -/
theorem checkCrewmateVictory_ends_iff (gs : GameState)
    (hrun : gs.gameEnded = false)
    (hpos : 0 < crewTotalTasks gs.players) :
    ((checkCrewmateVictory gs).gameEnded = true ∧
     (checkCrewmateVictory gs).winner = some Winner.crewmates ∧
     (checkCrewmateVictory gs).stage = Stage.ended)
      ↔ crewCompletedTasks gs.players = crewTotalTasks gs.players := by
  simp only [checkCrewmateVictory, hrun, Bool.false_eq_true, if_false]
  by_cases hdone : crewCompletedTasks gs.players = crewTotalTasks gs.players
  · simp [hdone, hpos, endGame]
  · simp [hdone, hrun]

/-- The spec's own C3 example: Player A alive with 2/2 tasks, Player B
eliminated with 2/2 tasks, the imposter with no tasks. -/
def gsTasksDone : GameState :=
  { stage := Stage.playing, roomCode := "AB22", hostName := some "PlayerA",
    players :=
      [{ name := "PlayerA", ready := true, role := Role.crewmate,
         tasks := ["Task1", "Task2"], alive := some true, tasksCompleted := 2 },
       { name := "PlayerB", ready := true, role := Role.crewmate,
         tasks := ["Task3", "Task4"], alive := some false, tasksCompleted := 2 },
       { name := "Imposter1", ready := true, role := Role.imposter,
         tasks := [], alive := some true, tasksCompleted := 0 }],
    gameEnded := false, winner := none, winReason := none, meetingsUsed := 0,
    settings := { minPlayers := 4, maxPlayers := 10, tasksPerPlayer := 2,
                  imposterCount := 1 } }

theorem checkCrewmateVictory_ends_iff_witness :
    ((checkCrewmateVictory gsTasksDone).gameEnded = true ∧
     (checkCrewmateVictory gsTasksDone).winner = some Winner.crewmates ∧
     (checkCrewmateVictory gsTasksDone).stage = Stage.ended)
      ↔ crewCompletedTasks gsTasksDone.players = crewTotalTasks gsTasksDone.players :=
  checkCrewmateVictory_ends_iff gsTasksDone rfl (by decide)

/-- An in-progress session whose single crewmate has no tasks at all. -/
def gsNoTasks : GameState :=
  { stage := Stage.playing, roomCode := "CD33", hostName := some "Player1",
    players :=
      [{ name := "Player1", ready := true, role := Role.crewmate,
         tasks := [], alive := some true, tasksCompleted := 0 }],
    gameEnded := false, winner := none, winReason := none, meetingsUsed := 0,
    settings := { minPlayers := 4, maxPlayers := 10, tasksPerPlayer := 3,
                  imposterCount := 1 } }

/-- C4 counterexample: with a zero crew-wide task total (sums of
`tasksCompleted` and `tasks.length` both 0) `checkCrewmateVictory` does
not end the game and records no winner, contradicting the claim that the
degenerate zero-task case counts as complete. -/
theorem checkCrewmateVictory_zero_total_counterexample :
    crewTotalTasks gsNoTasks.players = 0 ∧
    crewCompletedTasks gsNoTasks.players = 0 ∧
    (checkCrewmateVictory gsNoTasks).gameEnded = false ∧
    (checkCrewmateVictory gsNoTasks).winner = none ∧
    checkCrewmateVictory gsNoTasks = gsNoTasks :=
  ⟨rfl, rfl, rfl, rfl, rfl⟩

/-- C4 amended: when the crew-wide task total is zero,
`checkCrewmateVictory` leaves the session unchanged — it does not treat
the empty task set as complete. -/
theorem checkCrewmateVictory_zero_total (gs : GameState)
    (h : crewTotalTasks gs.players = 0) :
    checkCrewmateVictory gs = gs := by
  simp only [checkCrewmateVictory, h]
  split
  · rfl
  · simp

theorem checkCrewmateVictory_zero_total_witness :
    checkCrewmateVictory gsNoTasks = gsNoTasks :=
  checkCrewmateVictory_zero_total gsNoTasks rfl

/-- One entry of the enabled task catalog the draw reads (spec §6:
`{name, enabled, unique}`; only enabled tasks are drawn from, so the
catalog passed to the draw is the enabled subset).  `unique` means the
task may be assigned to at most one player session-wide (spec §4.3). -/
structure CatalogTask where
  name : String
  unique : Bool
  deriving Repr, DecidableEq

/-- The tasks still assignable once the draws in `prior` have been made:
a unique-flagged task already drawn is gone; non-unique tasks remain
available to every player (spec §4.3). -/
def availableTasks (catalog : List CatalogTask) (prior : List (List CatalogTask)) :
    List CatalogTask :=
  catalog.filter (fun t => !(t.unique && prior.any (fun c => decide (t ∈ c))))

/-- Admissibility of a sequence of per-position task draws, threading the
pool through the roster in order: an imposter position draws nothing; a
crewmate position draws distinct tasks from the currently available pool,
as many as the tasks-per-player target and the pool allow ("a number of
unique tasks up to the configured tasks-per-player target", spec §4.3).
Every draw the spec's randomized accounting can make is admissible, and
the theorems below quantify over all admissible draws. -/
def admissibleFrom (catalog : List CatalogTask) (tpp : Nat) :
    List (List CatalogTask) → List Bool → List (List CatalogTask) → Bool
  | _, [], [] => true
  | prior, true :: fs, c :: cs =>
    c.isEmpty && admissibleFrom catalog tpp prior fs cs
  | prior, false :: fs, c :: cs =>
    decide (c.Nodup) &&
      c.all (fun t => decide (t ∈ availableTasks catalog prior)) &&
      (c.length == min tpp (availableTasks catalog prior).length) &&
      admissibleFrom catalog tpp (prior ++ [c]) fs cs
  | _, _, _ => false

/-- An admissible draw sequence for the whole roster, starting from the
full enabled catalog. -/
def admissibleDraws (catalog : List CatalogTask) (tpp : Nat)
    (flags : List Bool) (choices : List (List CatalogTask)) : Bool :=
  admissibleFrom catalog tpp [] flags choices

/-- Modelled from the spec: the per-player effect of Role Assignment and
Task Accounting at the Waiting → Playing transition (spec §4.2, §4.3,
§4.5).  A player drawn as imposter receives role imposter and an empty
task list; every other player becomes a crewmate and receives the names
of the tasks drawn for them (the random unique-honoring draw of §4.3 is
quantified over all admissible draws, see `admissibleDraws`).  Every
player is reset to `alive = true` and `tasksCompleted = 0`. -/
def assignPlayer (isImp : Bool) (chosen : List CatalogTask) (p : Player) : Player :=
  if isImp then
    { p with role := Role.imposter, tasks := [], alive := some true, tasksCompleted := 0 }
  else
    { p with role := Role.crewmate, tasks := chosen.map (fun t => t.name),
             alive := some true, tasksCompleted := 0 }

/-- Role Assignment plus Task Accounting applied across the roster, one
flag and one drawn task list per position. -/
def assignRoster : List Bool → List (List CatalogTask) → List Player → List Player
  | f :: fs, c :: cs, p :: ps => assignPlayer f c p :: assignRoster fs cs ps
  | _, _, _ => []

/-- Modelled from the spec: `startGame` of the missing `js/game-logic.js`
(spec §4.5 Waiting → Playing).  `isHost` is the host identity check
(`myPlayerName === gameState.hostName`); `flags` records, per roster
position, whether the uniformly random draw of §4.2 selected that player
as imposter (a draw of `k` distinct players is any flag vector with
exactly `k` `true` entries); `choices` is the outcome of the randomized
task accounting of §4.3, constrained to `admissibleDraws` in the
theorems.  Failure messages are pinned by the test suite; on failure the
state is returned unchanged. -/
def startGame (gs : GameState) (isHost : Bool) (flags : List Bool)
    (choices : List (List CatalogTask)) : GameState × Option String :=
  if !isHost then
    (gs, some "Only the host can start the game!")
  else if gs.settings.imposterCount < 1 then
    (gs, some "Cannot start game: There must be at least 1 imposter!")
  else if gs.players.length ≤ gs.settings.imposterCount then
    (gs, some "Cannot start game: Number of imposters must be less than total players!")
  else
    ({ gs with stage := Stage.playing,
               players := assignRoster flags choices gs.players },
     none)

/-- Number of roster entries holding a given role. -/
def countRole (r : Role) (ps : List Player) : Nat :=
  ps.countP (fun p => decide (p.role = r))

theorem countRole_imposter_assignRoster :
    ∀ (flags : List Bool) (choices : List (List CatalogTask)) (ps : List Player),
      flags.length = ps.length → choices.length = ps.length →
      countRole Role.imposter (assignRoster flags choices ps) = flags.count true := by
  intro flags
  induction flags with
  | nil => intro choices ps h hc; cases choices <;> cases ps <;> rfl
  | cons f fs ih =>
    intro choices ps h hc
    cases ps with
    | nil => simp at h
    | cons p ps' =>
      cases choices with
      | nil => simp at hc
      | cons c cs =>
        have h' : fs.length = ps'.length := by simpa using h
        have hc' : cs.length = ps'.length := by simpa using hc
        have ih' := ih cs ps' h' hc'
        simp only [countRole] at ih' ⊢
        cases f <;> simp [assignRoster, List.countP_cons, List.count_cons, assignPlayer, ih']

theorem countRole_crewmate_assignRoster :
    ∀ (flags : List Bool) (choices : List (List CatalogTask)) (ps : List Player),
      flags.length = ps.length → choices.length = ps.length →
      countRole Role.crewmate (assignRoster flags choices ps) = flags.count false := by
  intro flags
  induction flags with
  | nil => intro choices ps h hc; cases choices <;> cases ps <;> rfl
  | cons f fs ih =>
    intro choices ps h hc
    cases ps with
    | nil => simp at h
    | cons p ps' =>
      cases choices with
      | nil => simp at hc
      | cons c cs =>
        have h' : fs.length = ps'.length := by simpa using h
        have hc' : cs.length = ps'.length := by simpa using hc
        have ih' := ih cs ps' h' hc'
        simp only [countRole] at ih' ⊢
        cases f <;> simp [assignRoster, List.countP_cons, List.count_cons, assignPlayer, ih']

theorem count_true_add_count_false (l : List Bool) :
    l.count true + l.count false = l.length := by
  induction l with
  | nil => rfl
  | cons b l ih => cases b <;> simp [List.count_cons] <;> omega

theorem length_assignRoster :
    ∀ (flags : List Bool) (choices : List (List CatalogTask)) (ps : List Player),
      flags.length = ps.length → choices.length = ps.length →
      (assignRoster flags choices ps).length = ps.length := by
  intro flags
  induction flags with
  | nil =>
    intro choices ps h hc
    cases ps with
    | nil => cases choices <;> rfl
    | cons p ps' => simp at h
  | cons f fs ih =>
    intro choices ps h hc
    cases ps with
    | nil => simp at h
    | cons p ps' =>
      cases choices with
      | nil => simp at hc
      | cons c cs =>
        have h' : fs.length = ps'.length := by simpa using h
        have hc' : cs.length = ps'.length := by simpa using hc
        simp [assignRoster, ih cs ps' h' hc']

theorem nonUnique_mem_availableTasks (catalog : List CatalogTask)
    (prior : List (List CatalogTask)) (t : CatalogTask)
    (ht : t ∈ catalog) (hu : t.unique = false) :
    t ∈ availableTasks catalog prior := by
  unfold availableTasks
  exact List.mem_filter.mpr ⟨ht, by simp [hu]⟩

theorem assignRoster_player_fields (catalog : List CatalogTask) (tpp : Nat)
    (hnu : ∃ t ∈ catalog, t.unique = false) (htpp : 1 ≤ tpp) :
    ∀ (flags : List Bool) (prior choices : List (List CatalogTask)) (ps : List Player),
      admissibleFrom catalog tpp prior flags choices = true →
      ∀ q ∈ assignRoster flags choices ps,
        q.alive = some true ∧ q.tasksCompleted = 0 ∧
        (q.role = Role.crewmate → q.tasks ≠ []) ∧
        (q.role = Role.imposter ∨ q.role = Role.crewmate) := by
  intro flags
  induction flags with
  | nil =>
    intro prior choices ps hadm q hq
    cases choices <;> cases ps <;> simp [assignRoster] at hq
  | cons f fs ih =>
    intro prior choices ps hadm q hq
    cases choices with
    | nil => cases f <;> simp [admissibleFrom] at hadm
    | cons c cs =>
      cases ps with
      | nil => simp [assignRoster] at hq
      | cons p ps' =>
        cases f with
        | true =>
          simp only [admissibleFrom, Bool.and_eq_true] at hadm
          simp only [assignRoster] at hq
          rcases List.mem_cons.mp hq with rfl | hq'
          · refine ⟨by simp [assignPlayer], by simp [assignPlayer], ?_,
                   Or.inl (by simp [assignPlayer])⟩
            intro habs
            simp [assignPlayer] at habs
          · exact ih prior cs ps' hadm.2 q hq'
        | false =>
          simp only [admissibleFrom, Bool.and_eq_true, beq_iff_eq] at hadm
          obtain ⟨⟨⟨-, -⟩, hlen⟩, hrest⟩ := hadm
          simp only [assignRoster] at hq
          rcases List.mem_cons.mp hq with rfl | hq'
          · refine ⟨by simp [assignPlayer], by simp [assignPlayer], ?_,
                   Or.inr (by simp [assignPlayer])⟩
            intro _
            have htasks : (assignPlayer false c p).tasks =
                c.map (fun t => t.name) := by simp [assignPlayer]
            rw [htasks]
            rcases hnu with ⟨t, ht, hu⟩
            have havail : t ∈ availableTasks catalog prior :=
              nonUnique_mem_availableTasks catalog prior t ht hu
            have h1 : 0 < (availableTasks catalog prior).length :=
              List.length_pos_of_mem havail
            have h2 : 0 < c.length := by
              rw [hlen]
              exact lt_min_iff.mpr ⟨htpp, h1⟩
            have h3 : 0 < (c.map (fun t => t.name)).length := by
              rw [List.length_map]; exact h2
            exact List.length_pos.mp h3
          · exact ih (prior ++ [c]) cs ps' hrest q hq'

/-- C5 (amended): a successful `startGame` by the host from the waiting
stage, for any draw of exactly `imposterCount` imposters among the roster
positions and any admissible task draw from an enabled catalog holding at
least one non-unique task, with a positive tasks-per-player target:
exactly `settings.imposterCount` players get role imposter, all the
remaining players get role crewmate, every crewmate's assigned task list
is nonempty, every player is reset to `alive = true` and
`tasksCompleted = 0`, and the stage becomes playing.  (Without a
non-unique task in the catalog the nonemptiness conjunct fails, see the
counterexample above this claim's entry.) -/
theorem startGame_success (gs : GameState) (flags : List Bool)
    (choices : List (List CatalogTask)) (catalog : List CatalogTask)
    (hstage : gs.stage = Stage.waiting)
    (hlen : flags.length = gs.players.length)
    (hclen : choices.length = gs.players.length)
    (hdraw : flags.count true = gs.settings.imposterCount)
    (hadm : admissibleDraws catalog gs.settings.tasksPerPlayer flags choices = true)
    (hnu : ∃ t ∈ catalog, t.unique = false)
    (h1 : 1 ≤ gs.settings.imposterCount)
    (h2 : gs.settings.imposterCount < gs.players.length)
    (htpp : 1 ≤ gs.settings.tasksPerPlayer) :
    (startGame gs true flags choices).2 = none ∧
    (startGame gs true flags choices).1.stage = Stage.playing ∧
    countRole Role.imposter (startGame gs true flags choices).1.players =
      gs.settings.imposterCount ∧
    countRole Role.crewmate (startGame gs true flags choices).1.players =
      gs.players.length - gs.settings.imposterCount ∧
    (startGame gs true flags choices).1.players.length = gs.players.length ∧
    (∀ p ∈ (startGame gs true flags choices).1.players,
      p.alive = some true ∧ p.tasksCompleted = 0 ∧
      (p.role = Role.crewmate → p.tasks ≠ []) ∧
      (p.role = Role.imposter ∨ p.role = Role.crewmate)) := by
  have hguard1 : ¬ gs.settings.imposterCount < 1 := by omega
  have hguard2 : ¬ gs.players.length ≤ gs.settings.imposterCount := by omega
  have heq : startGame gs true flags choices =
      ({ gs with stage := Stage.playing,
                 players := assignRoster flags choices gs.players }, none) := by
    simp only [startGame, Bool.not_true, Bool.false_eq_true, if_false]
    rw [if_neg hguard1, if_neg hguard2]
  rw [heq]
  refine ⟨rfl, rfl, ?_, ?_, ?_, ?_⟩
  · rw [countRole_imposter_assignRoster flags choices gs.players hlen hclen, hdraw]
  · rw [countRole_crewmate_assignRoster flags choices gs.players hlen hclen]
    have := count_true_add_count_false flags
    omega
  · exact length_assignRoster flags choices gs.players hlen hclen
  · intro p hp
    exact assignRoster_player_fields catalog gs.settings.tasksPerPlayer hnu htpp
      flags [] choices gs.players hadm p hp

/-- A four-player waiting room whose host starts the game with one
imposter drawn at the first roster position. -/
def gsWaiting : GameState :=
  { stage := Stage.waiting, roomCode := "EF44", hostName := some "Host",
    players :=
      [{ name := "Host", ready := true, role := Role.unassigned, tasks := [],
         alive := some true, tasksCompleted := 0 },
       { name := "Player1", ready := true, role := Role.unassigned, tasks := [],
         alive := some true, tasksCompleted := 0 },
       { name := "Player2", ready := true, role := Role.unassigned, tasks := [],
         alive := some true, tasksCompleted := 0 },
       { name := "Player3", ready := true, role := Role.unassigned, tasks := [],
         alive := some true, tasksCompleted := 0 }],
    gameEnded := false, winner := none, winReason := none, meetingsUsed := 0,
    settings := { minPlayers := 4, maxPlayers := 10, tasksPerPlayer := 2,
                  imposterCount := 1 } }

/-- An enabled catalog of two non-unique tasks. -/
def demoCatalog : List CatalogTask :=
  [{ name := "Task1", unique := false }, { name := "Task2", unique := false }]

/-- An admissible draw for `gsWaiting` over `demoCatalog`: the imposter
draws nothing, every crewmate draws both non-unique tasks. -/
def demoChoices : List (List CatalogTask) :=
  [[],
   [{ name := "Task1", unique := false }, { name := "Task2", unique := false }],
   [{ name := "Task1", unique := false }, { name := "Task2", unique := false }],
   [{ name := "Task1", unique := false }, { name := "Task2", unique := false }]]

theorem startGame_success_witness :
    (startGame gsWaiting true [true, false, false, false] demoChoices).2 = none ∧
    (startGame gsWaiting true [true, false, false, false] demoChoices).1.stage =
      Stage.playing ∧
    countRole Role.imposter
      (startGame gsWaiting true [true, false, false, false] demoChoices).1.players =
      gsWaiting.settings.imposterCount ∧
    countRole Role.crewmate
      (startGame gsWaiting true [true, false, false, false] demoChoices).1.players =
      gsWaiting.players.length - gsWaiting.settings.imposterCount ∧
    (startGame gsWaiting true [true, false, false, false] demoChoices).1.players.length =
      gsWaiting.players.length ∧
    (∀ p ∈ (startGame gsWaiting true [true, false, false, false] demoChoices).1.players,
      p.alive = some true ∧ p.tasksCompleted = 0 ∧
      (p.role = Role.crewmate → p.tasks ≠ []) ∧
      (p.role = Role.imposter ∨ p.role = Role.crewmate)) :=
  startGame_success gsWaiting [true, false, false, false] demoChoices demoCatalog
    rfl rfl rfl rfl (by decide) (by decide) (by decide) (by decide) (by decide)

/-- A three-player waiting room (one imposter to draw, two crewmates). -/
def gsWaitingTrio : GameState :=
  { stage := Stage.waiting, roomCode := "MN77", hostName := some "Host",
    players :=
      [{ name := "Host", ready := true, role := Role.unassigned, tasks := [],
         alive := some true, tasksCompleted := 0 },
       { name := "Player1", ready := true, role := Role.unassigned, tasks := [],
         alive := some true, tasksCompleted := 0 },
       { name := "Player2", ready := true, role := Role.unassigned, tasks := [],
         alive := some true, tasksCompleted := 0 }],
    gameEnded := false, winner := none, winReason := none, meetingsUsed := 0,
    settings := { minPlayers := 4, maxPlayers := 10, tasksPerPlayer := 3,
                  imposterCount := 1 } }

/-- An enabled catalog holding a single unique-flagged task. -/
def uniqueOnlyCatalog : List CatalogTask :=
  [{ name := "CalibrateSensor", unique := true }]

/-- The admissible draw over `uniqueOnlyCatalog` for `gsWaitingTrio`: the
imposter draws nothing, the first crewmate takes the sole unique task,
which starves the second crewmate (empty pool, hence an empty draw). -/
def starvedChoices : List (List CatalogTask) :=
  [[], [{ name := "CalibrateSensor", unique := true }], []]

/-- C5 counterexample: with an admissible draw from an all-unique enabled
catalog smaller than the crew, `startGame` succeeds (no error, stage
playing, one imposter drawn) yet leaves a crewmate with an empty task
list, refuting the claim's unconditional non-empty-task-list conjunct. -/
theorem startGame_empty_tasks_counterexample :
    admissibleDraws uniqueOnlyCatalog gsWaitingTrio.settings.tasksPerPlayer
      [true, false, false] starvedChoices = true ∧
    List.count true [true, false, false] = gsWaitingTrio.settings.imposterCount ∧
    gsWaitingTrio.stage = Stage.waiting ∧
    (startGame gsWaitingTrio true [true, false, false] starvedChoices).2 = none ∧
    (startGame gsWaitingTrio true [true, false, false] starvedChoices).1.stage =
      Stage.playing ∧
    ∃ p ∈ (startGame gsWaitingTrio true [true, false, false] starvedChoices).1.players,
      p.role = Role.crewmate ∧ p.tasks = [] := by
  decide

/-- C6: `startGame` by the host with `imposterCount = 0` fails with the
"at least 1 imposter" message, and with `imposterCount ≥ players.length`
(and at least one imposter configured) fails with the distinct
"less than total players" message; in both cases the whole state — stage,
roster, roles, tasks — is returned unchanged, so the stage is still
waiting. -/
theorem startGame_guard_failures (gs : GameState) (flags : List Bool)
    (choices : List (List CatalogTask)) (hstage : gs.stage = Stage.waiting) :
    (gs.settings.imposterCount = 0 →
      startGame gs true flags choices =
        (gs, some "Cannot start game: There must be at least 1 imposter!") ∧
      (startGame gs true flags choices).1.stage = Stage.waiting) ∧
    (1 ≤ gs.settings.imposterCount → gs.players.length ≤ gs.settings.imposterCount →
      startGame gs true flags choices =
        (gs, some "Cannot start game: Number of imposters must be less than total players!") ∧
      (startGame gs true flags choices).1.stage = Stage.waiting) ∧
    ("at least 1 imposter".toList <:+:
      "Cannot start game: There must be at least 1 imposter!".toList) ∧
    ("less than".toList <:+:
      "Cannot start game: Number of imposters must be less than total players!".toList) ∧
    ("Cannot start game: There must be at least 1 imposter!" : String) ≠
      "Cannot start game: Number of imposters must be less than total players!" := by
  refine ⟨?_, ?_, by decide, by decide, by decide⟩
  · intro h0
    have heq : startGame gs true flags choices =
        (gs, some "Cannot start game: There must be at least 1 imposter!") := by
      simp only [startGame, Bool.not_true, Bool.false_eq_true, if_false]
      rw [if_pos (by omega)]
    exact ⟨heq, by rw [heq]; exact hstage⟩
  · intro h1 h2
    have heq : startGame gs true flags choices =
        (gs, some "Cannot start game: Number of imposters must be less than total players!") := by
      simp only [startGame, Bool.not_true, Bool.false_eq_true, if_false]
      rw [if_neg (by omega), if_pos h2]
    exact ⟨heq, by rw [heq]; exact hstage⟩

/-- A waiting room misconfigured with zero imposters. -/
def gsWaitingZeroImp : GameState :=
  { gsWaiting with settings := { gsWaiting.settings with imposterCount := 0 } }

/-- A waiting room misconfigured with as many imposters as players. -/
def gsWaitingManyImp : GameState :=
  { gsWaiting with settings := { gsWaiting.settings with imposterCount := 4 } }

theorem startGame_guard_failures_witness :
    (startGame gsWaitingZeroImp true [] [] =
      (gsWaitingZeroImp, some "Cannot start game: There must be at least 1 imposter!")) ∧
    (startGame gsWaitingManyImp true [] [] =
      (gsWaitingManyImp,
        some "Cannot start game: Number of imposters must be less than total players!")) ∧
    (startGame gsWaitingZeroImp true [] []).1.stage = Stage.waiting ∧
    (startGame gsWaitingManyImp true [] []).1.stage = Stage.waiting :=
  ⟨((startGame_guard_failures gsWaitingZeroImp [] [] rfl).1 rfl).1,
   (((startGame_guard_failures gsWaitingManyImp [] [] rfl).2.1 (by decide) (by decide))).1,
   ((startGame_guard_failures gsWaitingZeroImp [] [] rfl).1 rfl).2,
   (((startGame_guard_failures gsWaitingManyImp [] [] rfl).2.1 (by decide) (by decide))).2⟩

/-- Modelled from the spec: `kickPlayer` of the missing `js/game-logic.js`
(spec §4.7): only the host may kick (distinct message, pinned by the test
suite), the external confirmation prompt may cancel the kick, and on
confirmation the named player is removed from the roster entirely
(a filter, so an absent name is a harmless no-op). -/
def kickPlayer (gs : GameState) (isHost : Bool) (confirmKick : Bool) (target : String) :
    GameState × Option String :=
  if !isHost then
    (gs, some "Only the host can kick players!")
  else if !confirmKick then
    (gs, none)
  else
    ({ gs with players := gs.players.filter (fun p => decide (p.name ≠ target)) }, none)

/-- C7: every host-only operation invoked by a non-host — `startGame` and
`kickPlayer` — reports an authorization failure, the two messages are
distinct, and the state (stage, roster, every player field) is returned
entirely unchanged. -/
theorem host_only_auth_failures (gs : GameState) (flags : List Bool)
    (choices : List (List CatalogTask)) (confirmKick : Bool) (target : String) :
    startGame gs false flags choices = (gs, some "Only the host can start the game!") ∧
    kickPlayer gs false confirmKick target = (gs, some "Only the host can kick players!") ∧
    ("Only the host can start the game!" : String) ≠ "Only the host can kick players!" :=
  ⟨rfl, rfl, by decide⟩

/-- Modelled from the spec: `leaveGame` of the missing `js/game-logic.js`
(spec §4.7): a no-op when the acting device has no player identity (in
particular the confirmation prompt is never shown — the second component
records whether it was); otherwise, after confirmation, the acting player
is removed from the roster entirely (an absent name is a harmless no-op). -/
def leaveGame (gs : GameState) (myPlayerName : Option String) (confirmLeave : Bool) :
    GameState × Bool :=
  match myPlayerName with
  | none => (gs, false)
  | some n =>
    if !confirmLeave then (gs, true)
    else ({ gs with players := gs.players.filter (fun p => decide (p.name ≠ n)) }, true)

/-- C10: `kickPlayer` and `leaveGame` leave the roster unchanged and
complete without error when the confirmation prompt is declined or the
named player is absent from the roster, and `leaveGame` without a player
identity is a no-op that never shows the confirmation prompt. -/
theorem kick_leave_noop_cases (gs : GameState) (target n : String) :
    kickPlayer gs true false target = (gs, none) ∧
    ((∀ p ∈ gs.players, p.name ≠ target) → kickPlayer gs true true target = (gs, none)) ∧
    leaveGame gs none true = (gs, false) ∧
    leaveGame gs none false = (gs, false) ∧
    leaveGame gs (some n) false = (gs, true) ∧
    ((∀ p ∈ gs.players, p.name ≠ n) → leaveGame gs (some n) true = (gs, true)) := by
  refine ⟨rfl, ?_, rfl, rfl, rfl, ?_⟩
  · intro h
    have hfil : gs.players.filter (fun p => decide (p.name ≠ target)) = gs.players :=
      List.filter_eq_self.mpr (fun a ha => by simpa using h a ha)
    simp only [kickPlayer, Bool.not_true, Bool.not_false, Bool.false_eq_true, if_false,
               if_true, hfil]
  · intro h
    have hfil : gs.players.filter (fun p => decide (p.name ≠ n)) = gs.players :=
      List.filter_eq_self.mpr (fun a ha => by simpa using h a ha)
    simp only [leaveGame, Bool.not_true, Bool.false_eq_true, if_false, hfil]

/-- A three-player lobby used to instantiate the no-op cases. -/
def gsLobby : GameState :=
  { stage := Stage.waiting, roomCode := "GH55", hostName := some "Host",
    players :=
      [{ name := "Host", ready := true, role := Role.unassigned, tasks := [],
         alive := some true, tasksCompleted := 0 },
       { name := "Player1", ready := true, role := Role.unassigned, tasks := [],
         alive := some true, tasksCompleted := 0 },
       { name := "Player2", ready := true, role := Role.unassigned, tasks := [],
         alive := some true, tasksCompleted := 0 }],
    gameEnded := false, winner := none, winReason := none, meetingsUsed := 0,
    settings := { minPlayers := 4, maxPlayers := 10, tasksPerPlayer := 3,
                  imposterCount := 1 } }

theorem kick_leave_noop_cases_witness :
    kickPlayer gsLobby true false "Player1" = (gsLobby, none) ∧
    kickPlayer gsLobby true true "NonExistentPlayer" = (gsLobby, none) ∧
    leaveGame gsLobby none true = (gsLobby, false) ∧
    leaveGame gsLobby none false = (gsLobby, false) ∧
    leaveGame gsLobby (some "Player1") false = (gsLobby, true) ∧
    leaveGame gsLobby (some "GhostPlayer") true = (gsLobby, true) :=
  ⟨(kick_leave_noop_cases gsLobby "Player1" "Player1").1,
   (kick_leave_noop_cases gsLobby "NonExistentPlayer" "Player1").2.1 (by decide),
   (kick_leave_noop_cases gsLobby "Player1" "Player1").2.2.1,
   (kick_leave_noop_cases gsLobby "Player1" "Player1").2.2.2.1,
   (kick_leave_noop_cases gsLobby "Player1" "Player1").2.2.2.2.1,
   (kick_leave_noop_cases gsLobby "Player1" "GhostPlayer").2.2.2.2.2 (by decide)⟩

/-- The fresh roster entry appended by a successful join (spec §4.7). -/
def newPlayer (name : String) : Player :=
  { name := name, ready := true, role := Role.unassigned, tasks := [],
    alive := some true, tasksCompleted := 0 }

/-- The observable outcome of a join attempt. -/
inductive JoinOutcome
  | joined (p : Player)
  | reconnected (p : Player)
  | emptyName
  | roomFull
  deriving Repr, DecidableEq

/-- The JavaScript `String.prototype.trim()` used on the submitted name,
modelled over the character list (leading and trailing whitespace
removed). -/
def jsTrim (s : String) : String :=
  String.mk (((s.toList.dropWhile Char.isWhitespace).reverse.dropWhile
    Char.isWhitespace).reverse)

/-- The JavaScript `String.prototype.toLowerCase()` used for the
case-insensitive roster match, modelled over the character list. -/
def jsToLower (s : String) : String :=
  String.mk (s.toList.map Char.toLower)

/-- Modelled from the spec: `joinGame` of the missing `js/game-logic.js`
(spec §4.7 Join): trims the submitted name and rejects blank names;
case-insensitively matches it against the roster and treats a match as a
reconnection returning the existing player with the roster unchanged;
otherwise rejects when the room is full, or appends a fresh player and, if
this device created the session and no host is set, records it as host. -/
def joinGame (gs : GameState) (rawName : String) (isCreator : Bool) :
    GameState × JoinOutcome :=
  let name := jsTrim rawName
  if name = "" then (gs, JoinOutcome.emptyName)
  else
    match gs.players.find? (fun q => decide (jsToLower q.name = jsToLower name)) with
    | some p => (gs, JoinOutcome.reconnected p)
    | none =>
      if gs.settings.maxPlayers ≤ gs.players.length then (gs, JoinOutcome.roomFull)
      else
        ({ gs with players := gs.players ++ [newPlayer name],
                   hostName := if isCreator ∧ gs.hostName = none then some name
                               else gs.hostName },
         JoinOutcome.joined (newPlayer name))

/-- No two roster entries share a name under case-insensitive comparison. -/
def noCaseDups (ps : List Player) : Prop :=
  ps.Pairwise (fun a b => jsToLower a.name ≠ jsToLower b.name)

instance (ps : List Player) : Decidable (noCaseDups ps) := by
  unfold noCaseDups
  infer_instance

/-- C8: a join whose trimmed name case-insensitively matches an existing
roster entry is a reconnection — the state (hence the roster and the
matched player's record) is returned unchanged and the existing player is
the outcome — and `joinGame` preserves the invariant that the roster never
holds two entries with case-insensitively equal names. -/
theorem joinGame_reconnect_no_duplicate (gs : GameState) (rawName : String)
    (isCreator : Bool) :
    (∀ p, jsTrim rawName ≠ "" →
      gs.players.find?
        (fun q => decide (jsToLower q.name = jsToLower (jsTrim rawName))) = some p →
      joinGame gs rawName isCreator = (gs, JoinOutcome.reconnected p)) ∧
    (noCaseDups gs.players → noCaseDups (joinGame gs rawName isCreator).1.players) := by
  constructor
  · intro p hne hfind
    simp only [joinGame, if_neg hne, hfind]
  · intro hnd
    by_cases h0 : jsTrim rawName = ""
    · simpa only [joinGame, if_pos h0] using hnd
    · cases hfind : gs.players.find?
        (fun q => decide (jsToLower q.name = jsToLower (jsTrim rawName))) with
      | some p => simpa only [joinGame, if_neg h0, hfind] using hnd
      | none =>
        by_cases hfull : gs.settings.maxPlayers ≤ gs.players.length
        · simpa only [joinGame, if_neg h0, hfind, if_pos hfull] using hnd
        · simp only [joinGame, if_neg h0, hfind, if_neg hfull]
          have hall : ∀ q ∈ gs.players, jsToLower q.name ≠ jsToLower (jsTrim rawName) := by
            intro q hq
            have := List.find?_eq_none.mp hfind q hq
            simpa using this
          unfold noCaseDups at hnd ⊢
          rw [List.pairwise_append]
          refine ⟨hnd, List.pairwise_singleton _ _, ?_⟩
          intro a ha b hb
          rw [List.mem_singleton] at hb
          subst hb
          simpa [newPlayer] using hall a ha

/-- A one-player lobby holding `Bob`, joined again as `bob`. -/
def gsBob : GameState :=
  { stage := Stage.waiting, roomCode := "JK66", hostName := some "Bob",
    players :=
      [{ name := "Bob", ready := true, role := Role.unassigned, tasks := [],
         alive := some true, tasksCompleted := 0 }],
    gameEnded := false, winner := none, winReason := none, meetingsUsed := 0,
    settings := { minPlayers := 4, maxPlayers := 10, tasksPerPlayer := 3,
                  imposterCount := 1 } }

theorem joinGame_reconnect_no_duplicate_witness :
    joinGame gsBob "bob" false = (gsBob, JoinOutcome.reconnected gsBob.players[0]) ∧
    noCaseDups (joinGame gsBob "bob" false).1.players :=
  ⟨(joinGame_reconnect_no_duplicate gsBob "bob" false).1 gsBob.players[0]
     (by decide) (by decide),
   (joinGame_reconnect_no_duplicate gsBob "bob" false).2 (by decide)⟩

/-- Modelled from the spec: `returnToMenu` of the missing
`js/game-logic.js` (spec §4.5 Any → Setup): unconditionally clears the
room code, host, roster, end-of-game flags and meeting budget and returns
to the setup stage. -/
def returnToMenu (gs : GameState) : GameState :=
  { gs with stage := Stage.setup, roomCode := "", hostName := none, players := [],
            gameEnded := false, winner := none, winReason := none, meetingsUsed := 0 }

/-- C9: `returnToMenu` from any non-setup stage succeeds with no guards
and yields a reset session: stage setup, empty room code, no host, empty
roster, `gameEnded = false`, no winner, and a cleared meeting budget. -/
theorem returnToMenu_resets (gs : GameState) (h : gs.stage ≠ Stage.setup) :
    (returnToMenu gs).stage = Stage.setup ∧
    (returnToMenu gs).roomCode = "" ∧
    (returnToMenu gs).hostName = none ∧
    (returnToMenu gs).players = [] ∧
    (returnToMenu gs).gameEnded = false ∧
    (returnToMenu gs).winner = none ∧
    (returnToMenu gs).meetingsUsed = 0 :=
  ⟨rfl, rfl, rfl, rfl, rfl, rfl, rfl⟩

theorem returnToMenu_resets_witness :
    (returnToMenu gsTasksDone).stage = Stage.setup ∧
    (returnToMenu gsTasksDone).roomCode = "" ∧
    (returnToMenu gsTasksDone).hostName = none ∧
    (returnToMenu gsTasksDone).players = [] ∧
    (returnToMenu gsTasksDone).gameEnded = false ∧
    (returnToMenu gsTasksDone).winner = none ∧
    (returnToMenu gsTasksDone).meetingsUsed = 0 :=
  returnToMenu_resets gsTasksDone (by decide)

end AmongUsIRL
